import Mathlib

/-!
Verification of the restaurant-menu service in
`restaurant-management/restaurant.py`: a Flask HTTP surface over a MongoDB
collection `menus` holding one document per restaurant with fields
`restaurant_id` and `menu_items`.

The embedding is shallow and executable:

* JSON scalar values are `JVal`; Python truthiness (`not x`) is `JVal.truthy`.
* The Mongo collection is a `Store := List MenuDoc`, in insertion order.
* `find_one` is a first-match scan; `update_one` with `$push`, positional
  `$set` and `$pull` act on the first document matching the filter, exactly
  as MongoDB's single-document update does, and report `modified_count`
  as `1` precisely when the matched document actually changed.
* Each Flask handler becomes a pure function from its inputs and the store
  to a `Response` (status plus the keys passed to `jsonify`) and the new
  store.  The MongoDB `_id` generated by `insert_one` is passed in as the
  extra argument `newOid`.  Store faults (the `except` branches producing
  500 responses) do not arise in the pure store model, so no 500 response
  is reachable here.
-/

namespace FoodDelivery

/-- JSON scalar value as delivered by Flask's request.get_json and stored in
Mongo documents.  Compound values (arrays, objects) do not occur in the menu
fields the claims are about. -/
inductive JVal where
  | jstr : String → JVal
  | jnum : Int → JVal
  | jbool : Bool → JVal
  | jnull : JVal
deriving DecidableEq, Repr

/-- Python truthiness of a JSON scalar: the handlers validate fields with
Python `not data.get(...)`, which is falsy for None, empty string, 0 and
False. -/
def JVal.truthy : JVal → Bool
  | .jstr s => !(s == "")
  | .jnum n => !(n == 0)
  | .jbool b => b
  | .jnull => false

/-- Truthiness of `data.get(key)`: an absent key yields Python None, which is
falsy. -/
def truthyOpt : Option JVal → Bool
  | none => false
  | some v => v.truthy

/-- Python `data.get(key)`: the stored value, or None when the key is
absent. -/
def pyGet : Option JVal → JVal
  | none => JVal.jnull
  | some v => v

/-- A menu item as built by add_menu: the three fields taken from the request
body. -/
structure MenuItem where
  product_name : JVal
  price : JVal
  detail : JVal
deriving DecidableEq, Repr

/-- One document of the `menus` collection: Mongo `_id` (modelled as a
number), the restaurant's id, and the ordered item list. -/
structure MenuDoc where
  oid : Nat
  restaurant_id : Nat
  menu_items : List MenuItem
deriving DecidableEq, Repr

/-- The `menus` collection, in insertion order. -/
abbrev Store := List MenuDoc

/-- A parsed JSON request body for POST/PUT: each key either absent or bound
to a scalar (a key bound to JSON null is present but falsy in Python). -/
structure ReqData where
  product_name : Option JVal
  price : Option JVal
  detail : Option JVal
deriving DecidableEq, Repr

/-- One entry of the get_all_menus response: `_id` and `restaurant_id`
rendered with Python str(...), plus the item list. -/
structure FormattedMenu where
  mid : String
  restaurant_id : String
  menu_items : List MenuItem
deriving DecidableEq, Repr

/-- An HTTP response: the status code and the keys the handler passed to
jsonify.  A key the handler did not pass is `none`. -/
structure Response where
  status : Nat
  msg : Option String
  error : Option String
  menu : Option (List MenuItem)
  menus : Option (List FormattedMenu)
deriving DecidableEq, Repr

/-- Response whose body is just a msg string, as in jsonify with a single
key. -/
def jsonMsg (st : Nat) (m : String) : Response :=
  { status := st, msg := some m, error := none, menu := none, menus := none }

/-- Mongo find_one on the filter restaurant_id = rid: the first matching
document in the collection. -/
def find_one (s : Store) (rid : Nat) : Option MenuDoc :=
  s.find? (fun d => d.restaurant_id == rid)

/-- Mongo update_one with push on menu_items, filter restaurant_id = rid:
appends the item to the array of the first matching document. -/
def pushItem (rid : Nat) (it : MenuItem) : Store → Store
  | [] => []
  | d :: rest =>
      if d.restaurant_id == rid then
        { d with menu_items := d.menu_items ++ [it] } :: rest
      else d :: pushItem rid it rest

/-- Mongo insert_one: the new document is appended to the collection. -/
def insert_one (s : Store) (d : MenuDoc) : Store := s ++ [d]

/-- The field writes of update_menu's set: overwrite price when the request
carried a price key, detail when it carried a detail key, nothing else. -/
def setItemFields (hasPrice : Bool) (p : JVal) (hasDetail : Bool) (dv : JVal)
    (it : MenuItem) : MenuItem :=
  { it with
    price := if hasPrice then p else it.price
    detail := if hasDetail then dv else it.detail }

/-- Mongo's positional operator: rewrite the first array element whose
product_name matches, leave every other element in place. -/
def updateFirstItem (pname : JVal) (f : MenuItem → MenuItem) :
    List MenuItem → List MenuItem
  | [] => []
  | it :: rest =>
      if it.product_name == pname then f it :: rest
      else it :: updateFirstItem pname f rest

/-- The compound filter of update_menu's update_one: restaurant_id matches
and the menu_items array holds an element with the given product_name. -/
def matchesSet (rid : Nat) (pname : JVal) (d : MenuDoc) : Bool :=
  d.restaurant_id == rid &&
    d.menu_items.any (fun it => it.product_name == pname)

/-- Mongo update_one with a positional set: the first document matching the
compound filter has its first matching array element rewritten; the second
component is modified_count, 1 exactly when the document changed. -/
def update_one_set (rid : Nat) (pname : JVal) (f : MenuItem → MenuItem) :
    Store → Store × Nat
  | [] => ([], 0)
  | d :: rest =>
      if matchesSet rid pname d then
        (({ d with menu_items := updateFirstItem pname f d.menu_items }) :: rest,
         if updateFirstItem pname f d.menu_items == d.menu_items then 0 else 1)
      else
        let r := update_one_set rid pname f rest
        (d :: r.1, r.2)

/-- Mongo pull by product_name: removes every matching element of the
array. -/
def pullItems (pname : String) (items : List MenuItem) : List MenuItem :=
  items.filter (fun it => !(it.product_name == JVal.jstr pname))

/-- Mongo update_one with pull, filter restaurant_id = rid: the first
matching document has all matching array elements removed; the second
component is modified_count. -/
def update_one_pull (rid : Nat) (pname : String) : Store → Store × Nat
  | [] => ([], 0)
  | d :: rest =>
      if d.restaurant_id == rid then
        (({ d with menu_items := pullItems pname d.menu_items }) :: rest,
         if pullItems pname d.menu_items == d.menu_items then 0 else 1)
      else
        let r := update_one_pull rid pname rest
        (d :: r.1, r.2)

/-- The validation check of add_menu, literally
`not data.get('product_name') or not data.get('price') or not data.get('detail')`
negated: all three fields present and truthy. -/
def validReq (data : ReqData) : Bool :=
  truthyOpt data.product_name && truthyOpt data.price && truthyOpt data.detail

/-- The new_menu_item dict built by add_menu from the request body. -/
def mkItem (data : ReqData) : MenuItem :=
  { product_name := pyGet data.product_name
    price := pyGet data.price
    detail := pyGet data.detail }

/-- POST /menu/(restaurant_id): validate the three fields, then append to an
existing menu (200) or insert a fresh one-item menu document (201).
`newOid` stands for the Mongo-generated `_id` of an inserted document. -/
def add_menu (restaurant_id : Nat) (data : ReqData) (newOid : Nat)
    (s : Store) : Response × Store :=
  if !(validReq data) then
    (jsonMsg 400 "Missing required fields (product_name, price, detail)", s)
  else
    match find_one s restaurant_id with
    | some _ =>
        (jsonMsg 200 "Menu item added successfully to existing menu",
         pushItem restaurant_id (mkItem data) s)
    | none =>
        (jsonMsg 201 "New menu created and item added successfully",
         insert_one s
           { oid := newOid, restaurant_id := restaurant_id,
             menu_items := [mkItem data] })

/-- GET /menu/(restaurant_id): the menu_items of the restaurant's document,
or 404 when it has none. -/
def get_menu (restaurant_id : Nat) (s : Store) : Response :=
  match find_one s restaurant_id with
  | some m =>
      { status := 200, msg := some ("Menu retrieved successfully"),
        error := none, menu := some m.menu_items, menus := none }
  | none => jsonMsg 404 "No menu found for the given restaurant_id"

/-- PUT /menu/(restaurant_id): 404 when the menu is missing, 400 when
product_name is absent or falsy, 404 when no item carries the name; otherwise
a positional set of exactly the supplied fields, answering 200 when the
write modified the document and 400 (no changes) when it did not. -/
def update_menu (restaurant_id : Nat) (data : ReqData) (s : Store) :
    Response × Store :=
  match find_one s restaurant_id with
  | none => (jsonMsg 404 "Restaurant menu not found", s)
  | some restaurant_menu =>
      if !(truthyOpt data.product_name) then
        (jsonMsg 400 "Product name is required", s)
      else
        match restaurant_menu.menu_items.find?
            (fun it => it.product_name == pyGet data.product_name) with
        | some _ =>
            let r := update_one_set restaurant_id (pyGet data.product_name)
              (setItemFields data.price.isSome (pyGet data.price)
                data.detail.isSome (pyGet data.detail)) s
            if r.2 > 0 then (jsonMsg 200 "Menu item updated successfully", r.1)
            else (jsonMsg 400 "No changes made to the product", r.1)
        | none => (jsonMsg 404 "Product not found in the menu", s)

/-- DELETE /menu/(restaurant_id)/(product_name): 404 when the menu or the
named item is missing; otherwise pull every matching item, answering 200 when
the document changed and 400 otherwise. -/
def delete_menu_item (restaurant_id : Nat) (product_name : String)
    (s : Store) : Response × Store :=
  match find_one s restaurant_id with
  | none => (jsonMsg 404 "Restaurant menu not found", s)
  | some restaurant_menu =>
      match restaurant_menu.menu_items.find?
          (fun it => it.product_name == JVal.jstr product_name) with
      | none => (jsonMsg 404 "Product not found in the menu", s)
      | some _ =>
          let r := update_one_pull restaurant_id product_name s
          if r.2 > 0 then (jsonMsg 200 "Menu item deleted successfully", r.1)
          else (jsonMsg 400 "No changes made to the menu", r.1)

/-- The response formatting of get_all_menus: both identifiers rendered with
Python str(...). -/
def formatMenu (d : MenuDoc) : FormattedMenu :=
  { mid := toString d.oid, restaurant_id := toString d.restaurant_id,
    menu_items := d.menu_items }

/-- GET /menu: every document of the collection, 404 when there are none. -/
def get_all_menus (s : Store) : Response :=
  if s.isEmpty then jsonMsg 404 "No menus found"
  else
    { status := 200, msg := some ("Menus retrieved successfully"),
      error := none, menu := none, menus := some (s.map formatMenu) }

/-- The sub-collection of documents belonging to one restaurant id, in
order: the frame a mutation on another restaurant must preserve. -/
def menusOf (s : Store) (rid : Nat) : Store :=
  s.filter (fun d => d.restaurant_id == rid)

/-- Relation between an item before and after update_menu: the name is
never touched, and an item whose name differs from the requested one is
untouched entirely. -/
def itemUpd (pname : JVal) (a b : MenuItem) : Prop :=
  b.product_name = a.product_name ∧ (a.product_name ≠ pname → b = a)

/-- Relation between a document before and after update_menu: identifiers
unchanged and the item lists related pointwise, so same length and order. -/
def docUpd (pname : JVal) (d d2 : MenuDoc) : Prop :=
  d2.oid = d.oid ∧ d2.restaurant_id = d.restaurant_id ∧
    List.Forall₂ (itemUpd pname) d.menu_items d2.menu_items

/-- Follows the spec's words, for comparison with the code's truthiness
check: a field value that is "present and non-empty/non-null" (AddItem
preconditions).  A present number — zero included — is non-empty and
non-null under this reading. -/
def presentNonEmptyNonNull : Option JVal → Bool
  | none => false
  | some .jnull => false
  | some (.jstr s) => !(s == "")
  | some (.jnum _) => true
  | some (.jbool _) => true

/-- Concrete request from the spec's scenario: Burger, price 5, Beef. -/
def reqBurger : ReqData :=
  ⟨some (.jstr ("Burger")), some (.jnum 5), some (.jstr ("Beef"))⟩

/-- Concrete request from the spec's scenario: Fries, price 2, Crispy. -/
def reqFries : ReqData :=
  ⟨some (.jstr ("Fries")), some (.jnum 2), some (.jstr ("Crispy"))⟩

/-- The Burger item as stored. -/
def itemBurger : MenuItem := mkItem reqBurger

/-- The Fries item as stored. -/
def itemFries : MenuItem := mkItem reqFries

/-- A one-document store holding restaurant 1's menu with the Burger item. -/
def storeBurger : Store := [⟨10, 1, [itemBurger]⟩]

/-- A one-document store whose menu holds Burger then Fries. -/
def storeBurgerFries : Store := [⟨10, 1, [itemBurger, itemFries]⟩]

/-- Request whose price is the number 0: present, non-empty, non-null, but
falsy in Python. -/
def reqPriceZero : ReqData :=
  ⟨some (.jstr ("Burger")), some (.jnum 0), some (.jstr ("Beef"))⟩

/-- Update request carrying only a new price for Burger. -/
def reqSetPrice6 : ReqData := ⟨some (.jstr ("Burger")), some (.jnum 6), none⟩

/-- Request lacking the price key altogether. -/
def reqNoPrice : ReqData :=
  ⟨some (.jstr ("Burger")), none, some (.jstr ("Beef"))⟩

/-- An empty request body. -/
def reqEmpty : ReqData := ⟨none, none, none⟩

/-- Update request re-sending Burger's stored values unchanged. -/
def reqSame : ReqData :=
  ⟨some (.jstr ("Burger")), some (.jnum 5), some (.jstr ("Beef"))⟩

section Lemmas

/-- Decomposition of a successful linear search: the list splits at the
first element satisfying the predicate. -/
theorem find?_decomp {α : Type} (p : α → Bool) {l : List α} {a : α}
    (h : l.find? p = some a) :
    ∃ pre post, l = pre ++ a :: post ∧ (∀ x ∈ pre, p x = false) ∧
      p a = true := by
  induction l with
  | nil => simp [List.find?] at h
  | cons b t ih =>
      by_cases hb : p b = true
      · rw [List.find?_cons_of_pos _ hb] at h
        have hba : b = a := Option.some.inj h
        subst hba
        exact ⟨[], t, by simp, by simp, hb⟩
      · rw [List.find?_cons_of_neg _ hb] at h
        obtain ⟨pre, post, hl, hpre, ha⟩ := ih h
        refine ⟨b :: pre, post, by simp [hl], ?_, ha⟩
        intro x hx
        rcases List.mem_cons.mp hx with hxb | hxp
        · subst hxb; exact Bool.eq_false_iff.mpr hb
        · exact hpre x hxp

/-- A linear search over a split list finds the marked element when nothing
before it matches. -/
theorem find?_append_cons {α : Type} (p : α → Bool) {pre post : List α}
    {a : α} (hpre : ∀ x ∈ pre, p x = false) (ha : p a = true) :
    (pre ++ a :: post).find? p = some a := by
  induction pre with
  | nil => simpa using List.find?_cons_of_pos _ ha
  | cons b t ih =>
      have hb : p b = false := hpre b (by simp)
      rw [List.cons_append, List.find?_cons_of_neg _ (by simp [hb])]
      exact ih fun x hx => hpre x (List.mem_cons_of_mem b hx)

/-- A failed search over a prefix passes through to the suffix. -/
theorem find?_append_of_none {α : Type} (p : α → Bool) {s : List α}
    (l : List α) (h : s.find? p = none) :
    (s ++ l).find? p = l.find? p := by
  induction s with
  | nil => simp
  | cons b t ih =>
      have hb : ¬ p b = true := by
        intro hb
        have := List.find?_eq_none.mp h b (by simp)
        exact this hb
      rw [List.find?_cons_of_neg _ hb] at h
      rw [List.cons_append, List.find?_cons_of_neg _ hb]
      exact ih h

/-- Pushing onto a store whose matching document sits at the end only
touches that document. -/
theorem pushItem_append (rid : Nat) (it : MenuItem) {s : Store}
    {d : MenuDoc} (h : ∀ x ∈ s, (x.restaurant_id == rid) = false)
    (hd : (d.restaurant_id == rid) = true) :
    pushItem rid it (s ++ [d]) =
      s ++ [{ d with menu_items := d.menu_items ++ [it] }] := by
  induction s with
  | nil => simp [pushItem, hd]
  | cons b t ih =>
      have hb := h b (by simp)
      simp only [List.cons_append, pushItem, hb, Bool.false_eq_true,
        if_false, List.cons.injEq, true_and]
      exact ih fun x hx => h x (List.mem_cons_of_mem b hx)

/-- The positional rewrite on a decomposed item list rewrites exactly the
marked first match. -/
theorem updateFirstItem_append_cons (pname : JVal) (f : MenuItem → MenuItem)
    {pre post : List MenuItem} {it : MenuItem}
    (hpre : ∀ x ∈ pre, (x.product_name == pname) = false)
    (hit : (it.product_name == pname) = true) :
    updateFirstItem pname f (pre ++ it :: post) = pre ++ f it :: post := by
  induction pre with
  | nil => simp [updateFirstItem, hit]
  | cons b t ih =>
      have hb := hpre b (by simp)
      simp only [List.cons_append, updateFirstItem, hb, Bool.false_eq_true,
        if_false, List.cons.injEq, true_and]
      exact ih fun x hx => hpre x (List.mem_cons_of_mem b hx)

/-- The positional set on a decomposed store rewrites exactly the marked
document, and modified_count says whether it changed. -/
theorem update_one_set_append (rid : Nat) (pname : JVal)
    (f : MenuItem → MenuItem) (pre : Store) (m : MenuDoc) (post : Store)
    (hpre : ∀ d ∈ pre, (d.restaurant_id == rid) = false)
    (hm : matchesSet rid pname m = true) :
    update_one_set rid pname f (pre ++ m :: post) =
      (pre ++ { m with menu_items := updateFirstItem pname f m.menu_items }
         :: post,
       if updateFirstItem pname f m.menu_items == m.menu_items then 0
       else 1) := by
  induction pre with
  | nil => simp [update_one_set, hm]
  | cons b t ih =>
      have hb : matchesSet rid pname b = false := by
        have := hpre b (by simp)
        simp [matchesSet, this]
      have iht := ih fun d hd => hpre d (List.mem_cons_of_mem b hd)
      simp only [List.cons_append, update_one_set, hb, Bool.false_eq_true,
        if_false, List.append_eq, iht]

/-- The pull on a decomposed store filters exactly the marked document's
items, and modified_count says whether it changed. -/
theorem update_one_pull_append (rid : Nat) (pname : String)
    (pre : Store) (m : MenuDoc) (post : Store)
    (hpre : ∀ d ∈ pre, (d.restaurant_id == rid) = false)
    (hm : (m.restaurant_id == rid) = true) :
    update_one_pull rid pname (pre ++ m :: post) =
      (pre ++ { m with menu_items := pullItems pname m.menu_items } :: post,
       if pullItems pname m.menu_items == m.menu_items then 0 else 1) := by
  induction pre with
  | nil => simp [update_one_pull, hm]
  | cons b t ih =>
      have hb := hpre b (by simp)
      have iht := ih fun d hd => hpre d (List.mem_cons_of_mem b hd)
      simp only [List.cons_append, update_one_pull, hb, Bool.false_eq_true,
        if_false, List.append_eq, iht]

/-- Removing the matches of a satisfied predicate shortens the list, so the
filtered list cannot be the original. -/
theorem filter_ne_of_any {α : Type} (p : α → Bool) {l : List α}
    (h : l.any p = true) : l.filter (fun x => !(p x)) ≠ l := by
  intro heq
  obtain ⟨x, hx, hpx⟩ := List.any_eq_true.mp h
  have hlen : (l.filter (fun x => !(p x))).length < l.length :=
    List.length_filter_lt_length_iff_exists.mpr ⟨x, hx, by simp [hpx]⟩
  rw [heq] at hlen
  exact Nat.lt_irrefl _ hlen

/-- Splitting equal lists around equal-length prefixes: replacing one
element keeps the list equal exactly when the element is kept equal. -/
theorem append_cons_eq_iff {α : Type} {pre post : List α} {a b : α} :
    pre ++ a :: post = pre ++ b :: post ↔ a = b := by
  constructor
  · intro h
    have := List.append_cancel_left h
    exact (List.cons.injEq a post b post ▸ this).1
  · intro h; rw [h]

end Lemmas

/-- C1: AddItem on a restaurant id with no existing menu and valid fields
creates a new menu holding exactly that one item and answers 201; a second
AddItem for the same id answers 200, and GetMenu afterwards returns the two
items in insertion order. -/
theorem add_menu_fresh_then_append (s : Store) (rid o1 o2 : Nat)
    (d1 d2 : ReqData) (hv1 : validReq d1 = true) (hv2 : validReq d2 = true)
    (hfresh : find_one s rid = none) :
    (add_menu rid d1 o1 s).1.status = 201 ∧
    (get_menu rid (add_menu rid d1 o1 s).2).status = 200 ∧
    (get_menu rid (add_menu rid d1 o1 s).2).menu = some [mkItem d1] ∧
    (add_menu rid d2 o2 (add_menu rid d1 o1 s).2).1.status = 200 ∧
    (get_menu rid (add_menu rid d2 o2 (add_menu rid d1 o1 s).2).2).menu =
      some [mkItem d1, mkItem d2] := by
  have hpre : ∀ x ∈ s, (x.restaurant_id == rid) = false := by
    intro x hx
    exact Bool.eq_false_iff.mpr (List.find?_eq_none.mp hfresh x hx)
  have hfresh2 : s.find? (fun d => d.restaurant_id == rid) = none := hfresh
  have h1 : add_menu rid d1 o1 s =
      (jsonMsg 201 "New menu created and item added successfully",
       s ++ [{ oid := o1, restaurant_id := rid, menu_items := [mkItem d1] }]) := by
    simp [add_menu, hv1, hfresh, insert_one]
  have hfind1 : find_one
      (s ++ [{ oid := o1, restaurant_id := rid, menu_items := [mkItem d1] }])
      rid =
      some { oid := o1, restaurant_id := rid, menu_items := [mkItem d1] } := by
    rw [find_one, find?_append_of_none _ _ hfresh2]
    exact List.find?_cons_of_pos _ (by simp)
  have hpush : pushItem rid (mkItem d2)
      (s ++ [{ oid := o1, restaurant_id := rid, menu_items := [mkItem d1] }]) =
      s ++ [{ oid := o1, restaurant_id := rid,
              menu_items := [mkItem d1, mkItem d2] }] := by
    simpa using pushItem_append rid (mkItem d2) hpre (d :=
      { oid := o1, restaurant_id := rid, menu_items := [mkItem d1] })
      (by simp)
  have h2 : add_menu rid d2 o2
      (s ++ [{ oid := o1, restaurant_id := rid, menu_items := [mkItem d1] }]) =
      (jsonMsg 200 "Menu item added successfully to existing menu",
       s ++ [{ oid := o1, restaurant_id := rid,
               menu_items := [mkItem d1, mkItem d2] }]) := by
    simp [add_menu, hv2, hfind1, hpush]
  have hfind2 : find_one
      (s ++ [{ oid := o1, restaurant_id := rid,
               menu_items := [mkItem d1, mkItem d2] }]) rid =
      some { oid := o1, restaurant_id := rid,
             menu_items := [mkItem d1, mkItem d2] } := by
    rw [find_one, find?_append_of_none _ _ hfresh2]
    exact List.find?_cons_of_pos _ (by simp)
  simp [h1, h2, get_menu, hfind1, hfind2, jsonMsg]

/-- Witness for C1 at the spec's concrete scenario (Burger then Fries for
restaurant 1 on an empty store). -/
theorem add_menu_fresh_then_append_witness :
    (add_menu 1 reqBurger 10 []).1.status = 201 ∧
    (get_menu 1 (add_menu 1 reqBurger 10 []).2).status = 200 ∧
    (get_menu 1 (add_menu 1 reqBurger 10 []).2).menu =
      some [mkItem reqBurger] ∧
    (add_menu 1 reqFries 11 (add_menu 1 reqBurger 10 []).2).1.status = 200 ∧
    (get_menu 1
        (add_menu 1 reqFries 11 (add_menu 1 reqBurger 10 []).2).2).menu =
      some [mkItem reqBurger, mkItem reqFries] :=
  add_menu_fresh_then_append [] 1 10 11 reqBurger reqFries (by decide)
    (by decide) (by decide)

/-- C3 counterexample: the 404 response of GetMenu on an empty store is a
plain msg body with no error field, refuting the claim that every 400, 404
or 500 response additionally carries an error string. -/
theorem get_menu_404_has_no_error :
    (get_menu 1 []).status = 404 ∧ (get_menu 1 []).error = none := by decide

/-- C3 (amended): every response of the five operations carries a msg
string, and the 400 and 404 error responses carry no error field — only the
500 storage-fault handlers, which the pure store model never reaches,
attach one. -/
theorem responses_have_msg_and_no_error (s : Store) (rid oid : Nat)
    (data : ReqData) (pn : String) :
    ((add_menu rid data oid s).1.msg.isSome = true ∧
      (add_menu rid data oid s).1.error = none) ∧
    ((get_menu rid s).msg.isSome = true ∧ (get_menu rid s).error = none) ∧
    ((update_menu rid data s).1.msg.isSome = true ∧
      (update_menu rid data s).1.error = none) ∧
    ((delete_menu_item rid pn s).1.msg.isSome = true ∧
      (delete_menu_item rid pn s).1.error = none) ∧
    ((get_all_menus s).msg.isSome = true ∧
      (get_all_menus s).error = none) := by
  refine ⟨?_, ?_, ?_, ?_, ?_⟩
  · unfold add_menu
    split
    · simp [jsonMsg]
    · split <;> simp [jsonMsg]
  · unfold get_menu
    split <;> simp [jsonMsg]
  · unfold update_menu
    split
    · simp [jsonMsg]
    · split
      · simp [jsonMsg]
      · split
        · simp only []
          split <;> simp [jsonMsg]
        · simp [jsonMsg]
  · unfold delete_menu_item
    split
    · simp [jsonMsg]
    · split
      · simp [jsonMsg]
      · simp only []
        split <;> simp [jsonMsg]
  · unfold get_all_menus
    split <;> simp [jsonMsg]

/-- C6: GetMenu for an id with no menu answers 404; ListAllMenus answers
404 on an empty store, and with at least one menu answers 200 carrying
every stored document, identifiers rendered as strings. -/
theorem empty_reads_are_errors (s : Store) (rid : Nat)
    (hn : find_one s rid = none) :
    (get_menu rid s).status = 404 ∧
    (get_all_menus []).status = 404 ∧
    (s ≠ [] →
      (get_all_menus s).status = 200 ∧
      (get_all_menus s).menus = some (s.map formatMenu) ∧
      (s.map formatMenu).length = s.length ∧
      ∀ d ∈ s, (formatMenu d).mid = toString d.oid ∧
        (formatMenu d).restaurant_id = toString d.restaurant_id) := by
  refine ⟨by simp [get_menu, hn, jsonMsg], by simp [get_all_menus, jsonMsg], ?_⟩
  intro h
  have he : s.isEmpty = false := by
    cases s with
    | nil => exact absurd rfl h
    | cons a t => simp [List.isEmpty]
  simp [get_all_menus, he, jsonMsg, formatMenu]

/-- Witness for C6: restaurant 2 has no menu in the one-document store of
restaurant 1, so GetMenu answers 404 while ListAllMenus answers 200. -/
theorem empty_reads_are_errors_witness :
    (get_menu 2 storeBurger).status = 404 ∧
    (get_all_menus storeBurger).status = 200 := by
  have h := empty_reads_are_errors storeBurger 2 (by decide)
  exact ⟨h.1, (h.2.2 (by decide)).1⟩

/-- C7 counterexample: a request whose price is the number 0 has all three
fields present, non-empty and non-null in the spec's sense, yet add_menu
answers 400 and leaves the store untouched, because Python truthiness
treats 0 like a missing value. -/
theorem add_menu_price_zero_rejected :
    presentNonEmptyNonNull reqPriceZero.product_name = true ∧
    presentNonEmptyNonNull reqPriceZero.price = true ∧
    presentNonEmptyNonNull reqPriceZero.detail = true ∧
    (add_menu 1 reqPriceZero 0 []).1.status = 400 ∧
    (add_menu 1 reqPriceZero 0 []).2 = [] := by decide

/-- C7 (amended): add_menu answers 400 and leaves the store unchanged
exactly when one of the three fields is absent or Python-falsy (null, empty
string, the number 0, False — so a present price of 0 is rejected); when
all three are truthy the request passes validation and reaches the store
write, answering 201 on a fresh restaurant id and 200 on an existing
one. -/
theorem add_menu_validation (rid oid : Nat) (data : ReqData) (s : Store) :
    (validReq data = false →
      (add_menu rid data oid s).1.status = 400 ∧
      (add_menu rid data oid s).2 = s) ∧
    (validReq data = true → (find_one s rid).isSome = false →
      (add_menu rid data oid s).1.status = 201) ∧
    (validReq data = true → (find_one s rid).isSome = true →
      (add_menu rid data oid s).1.status = 200) := by
  refine ⟨?_, ?_, ?_⟩
  · intro h
    simp [add_menu, h, jsonMsg]
  · intro h hf
    rcases hfe : find_one s rid with _ | m
    · simp [add_menu, h, hfe, jsonMsg]
    · rw [hfe] at hf
      simp at hf
  · intro h hf
    rcases hfe : find_one s rid with _ | m
    · rw [hfe] at hf
      simp at hf
    · simp [add_menu, h, hfe, jsonMsg]

/-- Witness for C7 (amended): a request lacking the price key is rejected
with 400 and the store is untouched. -/
theorem add_menu_validation_witness :
    (add_menu 1 reqNoPrice 0 storeBurger).1.status = 400 ∧
    (add_menu 1 reqNoPrice 0 storeBurger).2 = storeBurger :=
  (add_menu_validation 1 0 reqNoPrice storeBurger).1 (by decide)

/-- C10: update_menu consults the store before validating the body — a
missing menu answers 404 with the store untouched even when product_name is
absent, and the product-name-required 400 can only arise when the menu
exists. -/
theorem update_menu_existence_before_validation (s : Store) (rid : Nat)
    (data : ReqData) :
    (find_one s rid = none →
      (update_menu rid data s).1 = jsonMsg 404 "Restaurant menu not found" ∧
      (update_menu rid data s).2 = s) ∧
    ((update_menu rid data s).1 = jsonMsg 400 "Product name is required" →
      ∃ m, find_one s rid = some m) := by
  constructor
  · intro h
    simp [update_menu, h]
  · intro h
    rcases hfe : find_one s rid with _ | m
    · rw [update_menu, hfe] at h
      simp [jsonMsg] at h
    · exact ⟨m, rfl⟩

/-- Witness for C10: an empty body against an empty store answers 404, not
the validation 400. -/
theorem update_menu_existence_before_validation_witness :
    (update_menu 1 reqEmpty []).1 = jsonMsg 404 "Restaurant menu not found" ∧
    (update_menu 1 reqEmpty []).2 = ([] : Store) :=
  (update_menu_existence_before_validation [] 1 reqEmpty).1 (by decide)

/-- The store add_menu leaves behind: the original (validation failure), a
push into the existing document, or an insert of a fresh document. -/
theorem add_menu_store (rid oid : Nat) (data : ReqData) (s : Store) :
    (add_menu rid data oid s).2 = s ∨
    (add_menu rid data oid s).2 = pushItem rid (mkItem data) s ∨
    (add_menu rid data oid s).2 =
      insert_one s { oid := oid, restaurant_id := rid,
                     menu_items := [mkItem data] } := by
  unfold add_menu
  split
  · exact Or.inl rfl
  · split
    · exact Or.inr (Or.inl rfl)
    · exact Or.inr (Or.inr rfl)

/-- The store update_menu leaves behind: the original, or the result of the
positional set. -/
theorem update_menu_store (rid : Nat) (data : ReqData) (s : Store) :
    (update_menu rid data s).2 = s ∨
    (update_menu rid data s).2 =
      (update_one_set rid (pyGet data.product_name)
        (setItemFields data.price.isSome (pyGet data.price)
          data.detail.isSome (pyGet data.detail)) s).1 := by
  unfold update_menu
  split
  · exact Or.inl rfl
  · split
    · exact Or.inl rfl
    · split
      · simp only []
        split
        · exact Or.inr rfl
        · exact Or.inr rfl
      · exact Or.inl rfl

/-- The store delete_menu_item leaves behind: the original, or the result
of the pull. -/
theorem delete_menu_item_store (rid : Nat) (pn : String) (s : Store) :
    (delete_menu_item rid pn s).2 = s ∨
    (delete_menu_item rid pn s).2 = (update_one_pull rid pn s).1 := by
  unfold delete_menu_item
  split
  · exact Or.inl rfl
  · split
    · exact Or.inl rfl
    · simp only []
      split
      · exact Or.inr rfl
      · exact Or.inr rfl

/-- A push addressed to one restaurant is invisible to another
restaurant's sub-collection. -/
theorem menusOf_pushItem (rid rid2 : Nat) (it : MenuItem) (s : Store)
    (h : (rid == rid2) = false) :
    menusOf (pushItem rid it s) rid2 = menusOf s rid2 := by
  induction s with
  | nil => rfl
  | cons d rest ih =>
      by_cases hd : (d.restaurant_id == rid) = true
      · have hdr : d.restaurant_id = rid := by simpa using hd
        simp only [pushItem, hd, if_true]
        simp [menusOf, List.filter_cons, hdr, h]
      · simp only [pushItem, hd, Bool.false_eq_true, if_false]
        simp only [menusOf, List.filter_cons] at ih ⊢
        rw [ih]

/-- An insert of a document for one restaurant is invisible to another
restaurant's sub-collection. -/
theorem menusOf_insert_one (s : Store) (d : MenuDoc) (rid2 : Nat)
    (h : (d.restaurant_id == rid2) = false) :
    menusOf (insert_one s d) rid2 = menusOf s rid2 := by
  simp [menusOf, insert_one, List.filter_append, h]

/-- A positional set addressed to one restaurant is invisible to another
restaurant's sub-collection. -/
theorem menusOf_update_one_set (rid rid2 : Nat) (pname : JVal)
    (f : MenuItem → MenuItem) (s : Store) (h : (rid == rid2) = false) :
    menusOf (update_one_set rid pname f s).1 rid2 = menusOf s rid2 := by
  induction s with
  | nil => rfl
  | cons d rest ih =>
      by_cases hd : matchesSet rid pname d = true
      · have hdr : d.restaurant_id = rid := by
          rw [matchesSet, Bool.and_eq_true] at hd
          simpa using hd.1
        simp only [update_one_set, hd, if_true]
        simp [menusOf, List.filter_cons, hdr, h]
      · simp only [update_one_set, hd, Bool.false_eq_true, if_false]
        simp only [menusOf, List.filter_cons] at ih ⊢
        rw [ih]

/-- A pull addressed to one restaurant is invisible to another restaurant's
sub-collection. -/
theorem menusOf_update_one_pull (rid rid2 : Nat) (pn : String) (s : Store)
    (h : (rid == rid2) = false) :
    menusOf (update_one_pull rid pn s).1 rid2 = menusOf s rid2 := by
  induction s with
  | nil => rfl
  | cons d rest ih =>
      by_cases hd : (d.restaurant_id == rid) = true
      · have hdr : d.restaurant_id = rid := by simpa using hd
        simp only [update_one_pull, hd, if_true]
        simp [menusOf, List.filter_cons, hdr, h]
      · simp only [update_one_pull, hd, Bool.false_eq_true, if_false]
        simp only [menusOf, List.filter_cons] at ih ⊢
        rw [ih]

/-- C8: every mutating operation addressed to restaurant rid leaves the
documents of every other restaurant id completely unchanged. -/
theorem mutations_preserve_other_restaurants (s : Store)
    (rid rid2 oid : Nat) (data : ReqData) (pn : String) (h : rid2 ≠ rid) :
    menusOf (add_menu rid data oid s).2 rid2 = menusOf s rid2 ∧
    menusOf (update_menu rid data s).2 rid2 = menusOf s rid2 ∧
    menusOf (delete_menu_item rid pn s).2 rid2 = menusOf s rid2 := by
  have hb : (rid == rid2) = false := by
    rw [beq_eq_false_iff_ne]
    exact Ne.symm h
  refine ⟨?_, ?_, ?_⟩
  · rcases add_menu_store rid oid data s with h1 | h1 | h1 <;> rw [h1]
    · exact menusOf_pushItem _ _ _ _ hb
    · exact menusOf_insert_one _ _ _ hb
  · rcases update_menu_store rid data s with h1 | h1 <;> rw [h1]
    exact menusOf_update_one_set _ _ _ _ _ hb
  · rcases delete_menu_item_store rid pn s with h1 | h1 <;> rw [h1]
    exact menusOf_update_one_pull _ _ _ _ hb

/-- Witness for C8: mutating restaurant 1 leaves restaurant 2's
sub-collection as it was. -/
theorem mutations_preserve_other_restaurants_witness :
    menusOf (add_menu 1 reqFries 11 storeBurger).2 2 =
      menusOf storeBurger 2 ∧
    menusOf (update_menu 1 reqSetPrice6 storeBurger).2 2 =
      menusOf storeBurger 2 ∧
    menusOf (delete_menu_item 1 "Burger" storeBurger).2 2 =
      menusOf storeBurger 2 :=
  mutations_preserve_other_restaurants storeBurger 1 2 11 reqFries ("Burger")
    (by decide)

/-- Every item is shape-related to itself. -/
theorem itemUpd_refl (pname : JVal) (a : MenuItem) : itemUpd pname a a :=
  ⟨rfl, fun _ => rfl⟩

/-- An untouched item list is shape-related to itself. -/
theorem forall₂_itemUpd_refl (pname : JVal) (l : List MenuItem) :
    List.Forall₂ (itemUpd pname) l l :=
  List.forall₂_same.mpr fun a _ => itemUpd_refl pname a

/-- Every document is shape-related to itself. -/
theorem docUpd_refl (pname : JVal) (d : MenuDoc) : docUpd pname d d :=
  ⟨rfl, rfl, forall₂_itemUpd_refl pname d.menu_items⟩

/-- An untouched store is shape-related to itself. -/
theorem forall₂_docUpd_refl (pname : JVal) (s : Store) :
    List.Forall₂ (docUpd pname) s s :=
  List.forall₂_same.mpr fun d _ => docUpd_refl pname d

/-- The positional field write relates the item list to its update: same
length and order, names untouched, non-matching items untouched. -/
theorem forall₂_itemUpd_updateFirstItem (pname : JVal) (hasP : Bool)
    (p : JVal) (hasD : Bool) (dv : JVal) (l : List MenuItem) :
    List.Forall₂ (itemUpd pname) l
      (updateFirstItem pname (setItemFields hasP p hasD dv) l) := by
  induction l with
  | nil => exact List.Forall₂.nil
  | cons it rest ih =>
      by_cases hm : (it.product_name == pname) = true
      · have hpn : it.product_name = pname := by simpa using hm
        simp only [updateFirstItem, hm, if_true]
        exact List.Forall₂.cons ⟨rfl, fun hne => absurd hpn hne⟩
          (forall₂_itemUpd_refl pname rest)
      · simp only [updateFirstItem, hm, Bool.false_eq_true, if_false]
        exact List.Forall₂.cons (itemUpd_refl pname it) ih

/-- The positional set relates the store to its update documentwise. -/
theorem forall₂_docUpd_update_one_set (rid : Nat) (pname : JVal)
    (hasP : Bool) (p : JVal) (hasD : Bool) (dv : JVal) (s : Store) :
    List.Forall₂ (docUpd pname) s
      (update_one_set rid pname (setItemFields hasP p hasD dv) s).1 := by
  induction s with
  | nil => exact List.Forall₂.nil
  | cons d rest ih =>
      by_cases hm : matchesSet rid pname d = true
      · simp only [update_one_set, hm, if_true]
        exact List.Forall₂.cons
          ⟨rfl, rfl, forall₂_itemUpd_updateFirstItem pname hasP p hasD dv
            d.menu_items⟩
          (forall₂_docUpd_refl pname rest)
      · simp only [update_one_set, hm, Bool.false_eq_true, if_false]
        exact List.Forall₂.cons (docUpd_refl pname d) ih

/-- C9: update_menu never changes the number of documents or items, never
reorders items and never renames one: the resulting store is related
documentwise to the old one, items pointwise with names preserved, and
every item not bearing the requested product_name is untouched. -/
theorem update_menu_preserves_shape (s : Store) (rid : Nat)
    (data : ReqData) :
    List.Forall₂ (docUpd (pyGet data.product_name)) s
      (update_menu rid data s).2 := by
  rcases update_menu_store rid data s with h | h <;> rw [h]
  · exact forall₂_docUpd_refl _ s
  · exact forall₂_docUpd_update_one_set _ _ _ _ _ _ s

/-- C2: on an existing menu whose named item exists, update_menu answers
the distinct no-changes 400 exactly when the positional write changes
nothing — both when no updatable field was supplied and when the supplied
values equal the stored ones — and answers success 200 otherwise. -/
theorem update_menu_no_changes_iff (s : Store) (rid : Nat) (data : ReqData)
    (m : MenuDoc) (it : MenuItem)
    (hm : find_one s rid = some m)
    (hp : truthyOpt data.product_name = true)
    (hit : m.menu_items.find?
      (fun x => x.product_name == pyGet data.product_name) = some it) :
    (update_menu rid data s).1 =
      if setItemFields data.price.isSome (pyGet data.price)
          data.detail.isSome (pyGet data.detail) it = it
      then jsonMsg 400 "No changes made to the product"
      else jsonMsg 200 "Menu item updated successfully" := by
  obtain ⟨spre, spost, hs, hspre, hsrid⟩ := find?_decomp _ hm
  obtain ⟨ipre, ipost, hi, hipre, hiit⟩ := find?_decomp _ hit
  subst hs
  have hmatch : matchesSet rid (pyGet data.product_name) m = true := by
    rw [matchesSet, Bool.and_eq_true]
    refine ⟨hsrid, List.any_eq_true.mpr ⟨it, ?_, hiit⟩⟩
    rw [hi]
    simp
  have hufi : updateFirstItem (pyGet data.product_name)
      (setItemFields data.price.isSome (pyGet data.price)
        data.detail.isSome (pyGet data.detail)) m.menu_items =
      ipre ++ setItemFields data.price.isSome (pyGet data.price)
        data.detail.isSome (pyGet data.detail) it :: ipost := by
    rw [hi]
    exact updateFirstItem_append_cons _ _ hipre hiit
  have hlist : (updateFirstItem (pyGet data.product_name)
      (setItemFields data.price.isSome (pyGet data.price)
        data.detail.isSome (pyGet data.detail)) m.menu_items =
      m.menu_items) ↔
      (setItemFields data.price.isSome (pyGet data.price)
        data.detail.isSome (pyGet data.detail) it = it) := by
    rw [hufi, hi]
    exact append_cons_eq_iff
  have huos := update_one_set_append rid (pyGet data.product_name)
    (setItemFields data.price.isSome (pyGet data.price)
      data.detail.isSome (pyGet data.detail)) spre m spost hspre hmatch
  by_cases hfit : setItemFields data.price.isSome (pyGet data.price)
      data.detail.isSome (pyGet data.detail) it = it
  · rw [if_pos hfit]
    have hbeq : (updateFirstItem (pyGet data.product_name)
        (setItemFields data.price.isSome (pyGet data.price)
          data.detail.isSome (pyGet data.detail)) m.menu_items ==
        m.menu_items) = true := by
      rw [beq_iff_eq]
      exact hlist.mpr hfit
    simp [update_menu, hm, hp, hit, huos, hbeq]
  · rw [if_neg hfit]
    have hbeq : (updateFirstItem (pyGet data.product_name)
        (setItemFields data.price.isSome (pyGet data.price)
          data.detail.isSome (pyGet data.detail)) m.menu_items ==
        m.menu_items) = false := by
      rw [beq_eq_false_iff_ne]
      exact fun hc => hfit (hlist.mp hc)
    simp [update_menu, hm, hp, hit, huos, hbeq]

/-- Witness for C2: re-sending Burger's stored price and detail unchanged
yields the no-changes 400. -/
theorem update_menu_no_changes_iff_witness :
    (update_menu 1 reqSame storeBurger).1 =
      if setItemFields reqSame.price.isSome (pyGet reqSame.price)
          reqSame.detail.isSome (pyGet reqSame.detail) itemBurger =
          itemBurger
      then jsonMsg 400 "No changes made to the product"
      else jsonMsg 200 "Menu item updated successfully" :=
  update_menu_no_changes_iff storeBurger 1 reqSame
    ⟨10, 1, [itemBurger]⟩ itemBurger (by decide) (by decide) (by decide)

/-- C4: when the menu exists and its first item matching the request's
product_name (exactly, case-sensitively) is the marked one, update_menu
overwrites only the supplied fields of that item — a field not supplied
keeps its previous value — and every other item of the menu, before and
after the match, is unchanged. -/
theorem update_menu_partial_field_frame (s : Store) (rid : Nat)
    (data : ReqData) (m : MenuDoc) (pre post : List MenuItem)
    (it : MenuItem)
    (hm : find_one s rid = some m)
    (hp : truthyOpt data.product_name = true)
    (hdec : m.menu_items = pre ++ it :: post)
    (hpre : ∀ x ∈ pre, (x.product_name == pyGet data.product_name) = false)
    (hit : (it.product_name == pyGet data.product_name) = true) :
    ∃ it2 : MenuItem,
      find_one (update_menu rid data s).2 rid =
        some { m with menu_items := pre ++ it2 :: post } ∧
      it2.product_name = it.product_name ∧
      (∀ p, data.price = some p → it2.price = p) ∧
      (data.price = none → it2.price = it.price) ∧
      (∀ dv, data.detail = some dv → it2.detail = dv) ∧
      (data.detail = none → it2.detail = it.detail) := by
  obtain ⟨spre, spost, hs, hspre, hsrid⟩ := find?_decomp _ hm
  subst hs
  have hfind : m.menu_items.find?
      (fun x => x.product_name == pyGet data.product_name) = some it := by
    rw [hdec]
    exact find?_append_cons _ hpre hit
  have hmatch : matchesSet rid (pyGet data.product_name) m = true := by
    rw [matchesSet, Bool.and_eq_true]
    refine ⟨hsrid, List.any_eq_true.mpr ⟨it, ?_, hit⟩⟩
    rw [hdec]
    simp
  have hufi : updateFirstItem (pyGet data.product_name)
      (setItemFields data.price.isSome (pyGet data.price)
        data.detail.isSome (pyGet data.detail)) m.menu_items =
      pre ++ setItemFields data.price.isSome (pyGet data.price)
        data.detail.isSome (pyGet data.detail) it :: post := by
    rw [hdec]
    exact updateFirstItem_append_cons _ _ hpre hit
  have huos := update_one_set_append rid (pyGet data.product_name)
    (setItemFields data.price.isSome (pyGet data.price)
      data.detail.isSome (pyGet data.detail)) spre m spost hspre hmatch
  have hst : (update_menu rid data (spre ++ m :: spost)).2 =
      spre ++ { m with menu_items :=
        (pre ++ setItemFields data.price.isSome (pyGet data.price)
          data.detail.isSome (pyGet data.detail) it :: post) } :: spost := by
    simp only [update_menu, hm, hp, Bool.not_true, Bool.false_eq_true,
      if_false, hfind, huos]
    split <;> simp [hufi]
  have hfound : find_one
      (spre ++ { m with menu_items :=
        (pre ++ setItemFields data.price.isSome (pyGet data.price)
          data.detail.isSome (pyGet data.detail) it :: post) } :: spost)
      rid =
      some { m with menu_items :=
        (pre ++ setItemFields data.price.isSome (pyGet data.price)
          data.detail.isSome (pyGet data.detail) it :: post) } := by
    rw [find_one]
    exact find?_append_cons _ hspre (by simpa using hsrid)
  refine ⟨setItemFields data.price.isSome (pyGet data.price)
    data.detail.isSome (pyGet data.detail) it,
    by rw [hst]; exact hfound, rfl, ?_, ?_, ?_, ?_⟩
  · intro p hpe
    simp [setItemFields, hpe, pyGet]
  · intro hpe
    simp [setItemFields, hpe]
  · intro dv hde
    simp [setItemFields, hde, pyGet]
  · intro hde
    simp [setItemFields, hde]

/-- Witness for C4: updating only Burger's price to 6 in the two-item menu
keeps its detail and leaves Fries untouched. -/
theorem update_menu_partial_field_frame_witness :
    ∃ it2 : MenuItem,
      find_one (update_menu 1 reqSetPrice6 storeBurgerFries).2 1 =
        some { oid := 10, restaurant_id := 1,
               menu_items := [] ++ it2 :: [itemFries] } ∧
      it2.product_name = itemBurger.product_name ∧
      (∀ p, reqSetPrice6.price = some p → it2.price = p) ∧
      (reqSetPrice6.price = none → it2.price = itemBurger.price) ∧
      (∀ dv, reqSetPrice6.detail = some dv → it2.detail = dv) ∧
      (reqSetPrice6.detail = none → it2.detail = itemBurger.detail) :=
  update_menu_partial_field_frame storeBurgerFries 1 reqSetPrice6
    ⟨10, 1, [itemBurger, itemFries]⟩ [] [itemFries] itemBurger
    (by decide) (by decide) (by decide) (by decide) (by decide)

/-- C5: when the menu exists and holds at least one item with the given
name, delete_menu_item removes every matching item — duplicates included —
keeps the non-matching items in order and answers 200; when the menu or the
name is absent it answers 404 and the store is untouched. -/
theorem delete_menu_item_removes_matches (s : Store) (rid : Nat)
    (pn : String) :
    (∀ m, find_one s rid = some m →
      (m.menu_items.any (fun it => it.product_name == JVal.jstr pn) =
          true →
        (delete_menu_item rid pn s).1.status = 200 ∧
        find_one (delete_menu_item rid pn s).2 rid =
          some { m with menu_items := (m.menu_items.filter
            (fun it => !(it.product_name == JVal.jstr pn))) }) ∧
      (m.menu_items.any (fun it => it.product_name == JVal.jstr pn) =
          false →
        (delete_menu_item rid pn s).1.status = 404 ∧
        (delete_menu_item rid pn s).2 = s)) ∧
    (find_one s rid = none →
      (delete_menu_item rid pn s).1.status = 404 ∧
      (delete_menu_item rid pn s).2 = s) := by
  constructor
  · intro m hm
    obtain ⟨spre, spost, hs, hspre, hsrid⟩ := find?_decomp _ hm
    constructor
    · intro hany
      have hfs : (m.menu_items.find?
          (fun it => it.product_name == JVal.jstr pn)).isSome = true :=
        List.find?_isSome.mpr (List.any_eq_true.mp hany)
      obtain ⟨it0, hit0⟩ := Option.isSome_iff_exists.mp hfs
      have hpull := update_one_pull_append rid pn spre m spost hspre hsrid
      have hne : pullItems pn m.menu_items ≠ m.menu_items :=
        filter_ne_of_any _ hany
      have hflag : (pullItems pn m.menu_items == m.menu_items) = false := by
        rw [beq_eq_false_iff_ne]
        exact hne
      rw [hflag, if_neg] at hpull
      · constructor
        · rw [hs] at hm ⊢
          simp [delete_menu_item, hm, hit0, hpull, jsonMsg]
        · rw [hs] at hm ⊢
          simp only [delete_menu_item, hm, hit0, hpull]
          rw [find_one]
          exact find?_append_cons _ hspre (by simpa using hsrid)
      · simp
    · intro hany
      have hfn : m.menu_items.find?
          (fun it => it.product_name == JVal.jstr pn) = none := by
        rw [List.find?_eq_none]
        intro x hx hpx
        have ht : m.menu_items.any
            (fun it => it.product_name == JVal.jstr pn) = true :=
          List.any_eq_true.mpr ⟨x, hx, hpx⟩
        exact Bool.false_ne_true (hany ▸ ht)
      constructor
      · simp [delete_menu_item, hm, hfn, jsonMsg]
      · simp [delete_menu_item, hm, hfn]
  · intro hn
    constructor
    · simp [delete_menu_item, hn, jsonMsg]
    · simp [delete_menu_item, hn]

/-- Witness for C5: deleting Fries from the two-item menu answers 200 and
leaves only Burger. -/
theorem delete_menu_item_removes_matches_witness :
    (delete_menu_item 1 "Fries" storeBurgerFries).1.status = 200 ∧
    find_one (delete_menu_item 1 "Fries" storeBurgerFries).2 1 =
      some { oid := 10, restaurant_id := 1,
             menu_items := ([itemBurger, itemFries].filter
               (fun it => !(it.product_name == JVal.jstr ("Fries")))) } :=
  ((delete_menu_item_removes_matches storeBurgerFries 1 "Fries").1
    ⟨10, 1, [itemBurger, itemFries]⟩ (by decide)).1 (by decide)

end FoodDelivery
